import Mathlib

/-!
Shallow embedding of the Zilligon agent SDK client (`client.js` / `errors.js`):
the classified error type, client construction, the token store and its
validity checks, the credential-acquisition flows, the authenticated request
executor and its response classification, and the async media-job poller.

JavaScript conventions are modelled explicitly:
  * a possibly-absent value (`undefined` / `null`, and `NaN` for the computed
    expiry instant) is an `Option`;
  * JS truthiness of a string is "present and nonempty" (`strTruthy`),
    of a number "present and nonzero" (`intTruthy`);
  * `x || d` on strings/numbers falls back to the default on a falsy value
    (`strOrD` / `natOrD`);
  * a thrown exception is the `.error` side of an `Except`;
  * time is an explicit `Int` (milliseconds, `Date.now()`), passed in;
  * network requests are passed in as their outcomes, so that a function's
    control flow over those outcomes is the object of study.
-/

namespace Zilligon

/-- The classified error value of `errors.js` (`ZilligonError`):
message, machine-readable code, optional HTTP status, optional details map. -/
structure ZilligonError where
  message : String
  code : String
  statusCode : Option Nat := none
  details : Option (List (String × String)) := none
deriving Repr, DecidableEq

/-- `errors.js` line 35: the list of codes `isAuthError()` actually tests.
Note the source omits `TOKEN_REVOKED` here. -/
def authErrorCheckedCodes : List String :=
  ["INVALID_TOKEN", "INVALID_API_KEY", "TOKEN_EXPIRED", "UNAUTHORIZED"]

/-- `ZilligonError.isAuthError()` from `errors.js`. -/
def ZilligonError.isAuthError (e : ZilligonError) : Bool :=
  authErrorCheckedCodes.contains e.code

/-- The `// Authentication` group of the `ErrorCodes` constant in `errors.js`
(lines 100-105), which the spec calls the authentication class. -/
def errorCodesAuthenticationGroup : List String :=
  ["INVALID_TOKEN", "INVALID_API_KEY", "TOKEN_EXPIRED", "TOKEN_REVOKED", "UNAUTHORIZED"]

/-- JS truthiness of a possibly-absent string: present and nonempty. -/
def strTruthy : Option String → Bool
  | some s => s ≠ ""
  | none => false

/-- JS truthiness of a possibly-absent number: present and nonzero
(`none` also stands for `NaN`, which is falsy). -/
def intTruthy : Option Int → Bool
  | some i => i ≠ 0
  | none => false

/-- JS `s || d` for strings: the default replaces an absent or empty value. -/
def strOrD : Option String → String → String
  | some s, d => if s = "" then d else s
  | none, d => d

/-- JS `n || d` for numbers: the default replaces an absent or zero value. -/
def natOrD : Option Nat → Nat → Nat
  | some n, d => if n = 0 then d else n
  | none, d => d

/-- `client.js` line 6. -/
def DEFAULT_BASE_URL : String := "https://api.zilligon.com"

/-- `client.js` line 7: default request timeout in milliseconds. -/
def DEFAULT_TIMEOUT : Nat := 30000

/-- The caller-supplied configuration object (every field optional in JS). -/
structure ZilligonConfigInput where
  apiKey : Option String := none
  baseUrl : Option String := none
  timeout : Option Nat := none
  debug : Option Bool := none
deriving Repr, DecidableEq

/-- The resolved configuration stored on the client (constructor lines 14-20).
`apiKey` is stored as given (no default) and then checked for truthiness. -/
structure ClientConfig where
  apiKey : Option String
  baseUrl : String
  timeout : Nat
  debug : Bool
deriving Repr, DecidableEq

/-- The mutable credential state plus configuration of a `ZilligonClient`
instance (fields of the class, lines 9-12). -/
structure ClientState where
  config : ClientConfig
  accessToken : Option String := none
  refreshToken : Option String := none
  tokenExpiresAt : Option Int := none
deriving Repr, DecidableEq

/-- The `ZilligonClient` constructor (lines 13-24): resolve defaults, then
fail with `CONFIG_ERROR` when the API key is falsy. -/
def mkZilligonClient (cfg : ZilligonConfigInput) : Except ZilligonError ClientState :=
  let config : ClientConfig :=
    { apiKey := cfg.apiKey
      baseUrl := strOrD cfg.baseUrl DEFAULT_BASE_URL
      timeout := natOrD cfg.timeout DEFAULT_TIMEOUT
      debug := cfg.debug.getD false }
  if !(strTruthy config.apiKey) then
    .error { message := "API key is required", code := "CONFIG_ERROR" }
  else
    .ok { config := config }

/-- The internal validity check of `ensureValidToken` (line 74):
`this.accessToken && this.tokenExpiresAt && Date.now() < this.tokenExpiresAt - 60000`. -/
def tokenIsValid (s : ClientState) (now : Int) : Bool :=
  strTruthy s.accessToken && intTruthy s.tokenExpiresAt &&
    (match s.tokenExpiresAt with
     | some exp => decide (now < exp - 60000)
     | none => false)

/-- The public `isAuthenticated()` (line 505):
`!!this.accessToken && !!this.tokenExpiresAt && Date.now() < this.tokenExpiresAt`. -/
def isAuthenticated (s : ClientState) (now : Int) : Bool :=
  strTruthy s.accessToken && intTruthy s.tokenExpiresAt &&
    (match s.tokenExpiresAt with
     | some exp => decide (now < exp)
     | none => false)

/-- The credential-pair payload returned by the two auth endpoints
(`{ accessToken, refreshToken, expiresIn }`); each field may be missing
from a malformed response. -/
structure TokenResponse where
  accessToken : Option String := none
  refreshToken : Option String := none
  expiresIn : Option Int := none
deriving Repr, DecidableEq

/-- The three assignments shared by `authenticate` (lines 96-98) and
`refreshAccessToken` (lines 103-105): all three credential fields are
overwritten from the response; a missing `expiresIn` makes the computed
expiry `NaN` (modelled `none`). -/
def applyTokenResponse (s : ClientState) (now : Int) (resp : TokenResponse) : ClientState :=
  { s with
    accessToken := resp.accessToken
    refreshToken := resp.refreshToken
    tokenExpiresAt := resp.expiresIn.map (fun e => now + e * 1000) }

/-- `authenticate()` (lines 94-100), with the outcome of its
`POST /v1/auth/token` request passed in. Returns the new state and,
on failure, the propagated error (state untouched). -/
def authenticate (s : ClientState) (now : Int)
    (reqResult : Except ZilligonError TokenResponse) :
    ClientState × Option ZilligonError :=
  match reqResult with
  | .error e => (s, some e)
  | .ok resp => (applyTokenResponse s now resp, none)

/-- `refreshAccessToken()` (lines 101-107), with the outcome of its
`POST /v1/auth/refresh` request passed in. Same replace-on-success shape. -/
def refreshAccessToken (s : ClientState) (now : Int)
    (reqResult : Except ZilligonError TokenResponse) :
    ClientState × Option ZilligonError :=
  match reqResult with
  | .error e => (s, some e)
  | .ok resp => (applyTokenResponse s now resp, none)

/-- A network call made by `ensureValidToken`: the refresh exchange or the
full authenticate exchange. -/
inductive NetCall where
  | refresh
  | auth
deriving Repr, DecidableEq

/-- The tail of `ensureValidToken` (lines 90-92): perform the authenticate
exchange, propagate its failure, else return the freshly stored token
(line 92 returns `this.accessToken` as stored, possibly null). -/
def ensureAuthStep (s : ClientState) (now : Int)
    (authOutcome : Except ZilligonError TokenResponse) (calls : List NetCall) :
    ClientState × Except ZilligonError (Option String) × List NetCall :=
  match authOutcome with
  | .error e => (s, .error e, calls ++ [NetCall.auth])
  | .ok resp =>
    let s2 := applyTokenResponse s now resp
    (s2, .ok s2.accessToken, calls ++ [NetCall.auth])

/-- `ensureValidToken()` (lines 72-93), with the outcomes the refresh and
authenticate requests would produce passed in, and the list of network
calls actually made returned alongside the state and result.
Mirrors the source: valid token → return it with no call; else, refresh
token present → one refresh attempt whose failure is swallowed (and whose
success is only accepted when it stored a truthy access token); else / then
one authenticate attempt whose failure propagates. -/
def ensureValidToken (s : ClientState) (now : Int)
    (refreshOutcome authOutcome : Except ZilligonError TokenResponse) :
    ClientState × Except ZilligonError (Option String) × List NetCall :=
  if tokenIsValid s now then
    (s, .ok s.accessToken, [])
  else if strTruthy s.refreshToken then
    match refreshOutcome with
    | .ok resp =>
      let s1 := applyTokenResponse s now resp
      if strTruthy s1.accessToken then (s1, .ok s1.accessToken, [NetCall.refresh])
      else ensureAuthStep s1 now authOutcome [NetCall.refresh]
    | .error _ => ensureAuthStep s now authOutcome [NetCall.refresh]
  else
    ensureAuthStep s now authOutcome []

/-- The `error` member of the wire envelope: `{ code, message, details }`,
each possibly missing. -/
structure ApiErrorBody where
  code : Option String := none
  message : Option String := none
  details : Option (List (String × String)) := none
deriving Repr, DecidableEq

/-- The wire envelope `{ success, data?, error? }` parsed from a response
body. -/
structure Envelope (α : Type) where
  success : Bool
  data : Option α := none
  error : Option ApiErrorBody := none
deriving Repr, DecidableEq

/-- The envelope-classification step of `request()` (lines 55-59): HTTP
not-OK or `success` false throws a `ZilligonError` built from the server
error (with `||`-style defaults `API_ERROR` and a status message), else the
inner `data` payload is returned. -/
def classifyResponse {α : Type} (ok : Bool) (status : Nat) (env : Envelope α) :
    Except ZilligonError (Option α) :=
  if !ok || !env.success then
    .error
      { message := strOrD (env.error.bind ApiErrorBody.message)
          ("Request failed with status " ++ toString status)
        code := strOrD (env.error.bind ApiErrorBody.code) "API_ERROR"
        statusCode := some status
        details := env.error.bind ApiErrorBody.details }
  else
    .ok env.data

/-- What the injected transport does for one request: resolve with a
response whose body parses to an envelope, resolve with a body that fails
to parse as JSON, reject with a named error, or never settle at all. -/
inductive TransportBehavior (α : Type) where
  | resolves (ok : Bool) (status : Nat) (env : Envelope α)
  | badJson (msg : String)
  | rejects (name : String) (msg : String)
  | neverResolves

/-- Timer-related events of one `request()` execution: the timeout timer is
armed (line 45), cleared (lines 53 and 62), or its abort callback fires
after the configured delay. -/
inductive TimerEvent where
  | setTimer (ms : Nat)
  | clearTimer
  | abortFired (atMs : Nat)
deriving Repr, DecidableEq

/-- The transport/classification phase of `request()` (lines 44-70), run
against a transport behaviour, returning the outcome together with the
ordered timer events. When the transport never resolves, the abort signal
fires after `timeoutMs`, the fetch rejects with an `AbortError`, and the
catch block maps it to a `TIMEOUT` error; every path clears the timer. -/
def request {α : Type} (timeoutMs : Nat) (tb : TransportBehavior α) :
    Except ZilligonError (Option α) × List TimerEvent :=
  match tb with
  | .resolves ok status env =>
    match classifyResponse ok status env with
    | .ok d => (.ok d, [TimerEvent.setTimer timeoutMs, TimerEvent.clearTimer])
    | .error e =>
      (.error e,
       [TimerEvent.setTimer timeoutMs, TimerEvent.clearTimer, TimerEvent.clearTimer])
  | .badJson msg =>
    (.error { message := msg, code := "NETWORK_ERROR" },
     [TimerEvent.setTimer timeoutMs, TimerEvent.clearTimer, TimerEvent.clearTimer])
  | .rejects nm msg =>
    (if nm = "AbortError" then
       .error { message := "Request timed out", code := "TIMEOUT" }
     else
       .error { message := msg, code := "NETWORK_ERROR" },
     [TimerEvent.setTimer timeoutMs, TimerEvent.clearTimer])
  | .neverResolves =>
    (.error { message := "Request timed out", code := "TIMEOUT" },
     [TimerEvent.setTimer timeoutMs, TimerEvent.abortFired timeoutMs, TimerEvent.clearTimer])

/-- The job descriptor returned by the media submit endpoint. -/
structure MediaJob where
  jobId : String
  estimatedTime : Option Nat := none
deriving Repr, DecidableEq

/-- The result payload of a media generation job. -/
structure MediaResult where
  success : Bool
  url : Option String := none
  mimeType : String := ""
  provider : String := ""
  modelId : String := ""
  error : Option String := none
deriving Repr, DecidableEq

/-- The status payload returned by `GET /v1/media/status/:jobId`. -/
structure MediaJobStatus where
  status : String
  result : Option MediaResult := none
  progress : Option Nat := none
deriving Repr, DecidableEq

/-- `client.js` line 469: the poller's hard ceiling (5 minutes). -/
def maxWaitMs : Nat := 300000

/-- `client.js` line 470: the poller's fixed sleep interval. -/
def pollIntervalMs : Nat := 2000

/-- The synthesized failure result (lines 479-485); the model id falls back
to `'unknown'` via `input.model || 'unknown'`. -/
def failedResult (modelOpt : Option String) : MediaResult :=
  { success := false
    mimeType := ""
    provider := "unknown"
    modelId := strOrD modelOpt "unknown"
    error := some "Media generation failed" }

/-- The synthesized timeout result (lines 490-496). -/
def timeoutResult (modelOpt : Option String) : MediaResult :=
  { success := false
    mimeType := ""
    provider := "unknown"
    modelId := strOrD modelOpt "unknown"
    error := some "Media generation timed out" }

/-- The polling loop of `generateMediaAndWait` (lines 472-497), over the
sequence of status-poll outcomes. `elapsed` is the loop guard's clock
(sleeps advance it by `pollIntervalMs`; polls are instantaneous), `i` the
index of the next poll, which also counts the polls already made. Returns
the outcome (a poll-request failure propagates as `.error`) and the total
number of polls made. A status of `completed` only returns when a result
payload is attached (line 475); `failed` returns the synthesized failure;
anything else keeps looping until the guard expires. -/
def generateMediaAndWaitFrom (polls : Nat → Except ZilligonError MediaJobStatus)
    (modelOpt : Option String) (elapsed : Nat) (i : Nat) :
    Except ZilligonError MediaResult × Nat :=
  if _h : elapsed < maxWaitMs then
    match polls i with
    | .error e => (.error e, i + 1)
    | .ok st =>
      match st.result with
      | some r =>
        if st.status = "completed" then (.ok r, i + 1)
        else if st.status = "failed" then (.ok (failedResult modelOpt), i + 1)
        else generateMediaAndWaitFrom polls modelOpt (elapsed + pollIntervalMs) (i + 1)
      | none =>
        if st.status = "failed" then (.ok (failedResult modelOpt), i + 1)
        else generateMediaAndWaitFrom polls modelOpt (elapsed + pollIntervalMs) (i + 1)
  else
    (.ok (timeoutResult modelOpt), i)
termination_by maxWaitMs - elapsed
decreasing_by
  all_goals simp only [maxWaitMs, pollIntervalMs] at *
  all_goals omega

/-- `generateMediaAndWait` (lines 453-497): submit the job (a submit-request
failure propagates as `.error`, lines 455-466 have no try/catch), then run
the polling loop. -/
def generateMediaAndWait (submit : Except ZilligonError MediaJob)
    (polls : Nat → Except ZilligonError MediaJobStatus) (modelOpt : Option String) :
    Except ZilligonError MediaResult × Nat :=
  match submit with
  | .error e => (.error e, 0)
  | .ok _ => generateMediaAndWaitFrom polls modelOpt 0 0

/-- A resolved configuration used by the concrete examples below. -/
def exConfig : ClientConfig :=
  { apiKey := some "zk_live_key", baseUrl := DEFAULT_BASE_URL,
    timeout := DEFAULT_TIMEOUT, debug := false }

/-- A client state holding a token pair that expires at instant 100000. -/
def exStateMargin : ClientState :=
  { config := exConfig, accessToken := some "tok", refreshToken := some "refresh",
    tokenExpiresAt := some 100000 }

/-- A client state that never acquired a token. -/
def exStateNoToken : ClientState := { config := exConfig }

/-- A refresh-endpoint failure used in the examples. -/
def eRefreshDown : ZilligonError := { message := "refresh down", code := "NETWORK_ERROR" }

/-- An authenticate-endpoint failure used in the examples. -/
def eAuthDown : ZilligonError := { message := "auth down", code := "INVALID_API_KEY" }

/-- A submit-request failure used in the examples. -/
def eNetDown : ZilligonError := { message := "fetch failed", code := "NETWORK_ERROR" }

/-- A non-terminal job status used in the examples. -/
def processingStatus : MediaJobStatus := { status := "processing", progress := some 40 }

/-- A `completed` status carrying no result payload, used in the examples. -/
def completedNoResultStatus : MediaJobStatus :=
  { status := "completed", result := none, progress := some 100 }

/-- A successful media result used in the examples. -/
def exMediaResult : MediaResult :=
  { success := true, url := some "https://cdn.zilligon.com/m.png",
    mimeType := "image/png", provider := "openai", modelId := "dalle3" }

/-- A submitted job descriptor used in the examples. -/
def exJob : MediaJob := { jobId := "job_1", estimatedTime := some 30 }

/-- C8: the spec's authentication class has five codes, but the source's
`isAuthError()` (errors.js line 35) tests only four: an error coded
`TOKEN_REVOKED` — listed under the `// Authentication` group of the source's
own `ErrorCodes` constant — is not recognised as an auth error. -/
theorem C8_isAuthError_misses_token_revoked :
    ZilligonError.isAuthError { message := "Token has been revoked", code := "TOKEN_REVOKED" }
      = false ∧
    "TOKEN_REVOKED" ∈ errorCodesAuthenticationGroup ∧
    (∀ c : String, c ∈ authErrorCheckedCodes → c ∈ errorCodesAuthenticationGroup) := by
  decide

/-- C9: construction fails with `CONFIG_ERROR` exactly when the supplied API
key is absent (falsy), regardless of the other configuration fields; with a
(truthy) secret present, construction succeeds. -/
theorem C9_construction_requires_secret :
    ∀ cfg : ZilligonConfigInput,
      (strTruthy cfg.apiKey = false →
        mkZilligonClient cfg =
          .error { message := "API key is required", code := "CONFIG_ERROR" }) ∧
      (strTruthy cfg.apiKey = true → (mkZilligonClient cfg).isOk = true) := by
  intro cfg
  constructor <;> intro h <;> simp [mkZilligonClient, h, Except.isOk, Except.toBool]

/-- C9 witness: a configuration without a key fails with `CONFIG_ERROR`; one
with a key (and arbitrary other fields) succeeds. -/
theorem C9_construction_requires_secret_witness :
    mkZilligonClient { apiKey := none, baseUrl := some "https://x", debug := some true } =
      .error { message := "API key is required", code := "CONFIG_ERROR" } ∧
    (mkZilligonClient { apiKey := some "zk_live_key", timeout := some 5000 }).isOk = true := by
  exact ⟨(C9_construction_requires_secret _).1 (by decide),
         (C9_construction_requires_secret _).2 (by decide)⟩

/-- C3 counterexample: the claim says both validity predicates apply the
60-second margin, but at 30 seconds before expiry (within the margin) the
internal check is false while `isAuthenticated()` — which compares against
the bare expiry instant (client.js line 505) — is still true. -/
theorem C3_counterexample_no_margin_in_isAuthenticated :
    (100000 : Int) - 70000 ≤ 60000 ∧
    tokenIsValid exStateMargin 70000 = false ∧
    isAuthenticated exStateMargin 70000 = true := by
  decide

/-- C3 (amended): both predicates are false when no (truthy) token or expiry
is stored; with a token and expiry, the internal check used by
`ensureValidToken` is true iff now is more than 60 seconds before the
expiry, while the public `isAuthenticated()` applies no margin and is true
iff now is before the bare expiry instant. -/
theorem C3_validity_predicates :
    ∀ (s : ClientState) (now : Int),
      (strTruthy s.accessToken = false ∨ intTruthy s.tokenExpiresAt = false →
        tokenIsValid s now = false ∧ isAuthenticated s now = false) ∧
      (∀ exp : Int, s.tokenExpiresAt = some exp → strTruthy s.accessToken = true → exp ≠ 0 →
        tokenIsValid s now = decide (now < exp - 60000) ∧
        isAuthenticated s now = decide (now < exp)) := by
  intro s now
  refine ⟨fun h => ?_, fun exp hexp htok hne => ?_⟩
  · rcases h with h | h <;> simp [tokenIsValid, isAuthenticated, h]
  · simp [tokenIsValid, isAuthenticated, hexp, htok, intTruthy, hne]

/-- C3 witness: outside the margin both predicates are true; with no token
both are false. -/
theorem C3_validity_predicates_witness :
    tokenIsValid exStateMargin 30000 = true ∧
    isAuthenticated exStateMargin 30000 = true ∧
    tokenIsValid exStateNoToken 30000 = false ∧
    isAuthenticated exStateNoToken 30000 = false := by
  have h2 := (C3_validity_predicates exStateMargin 30000).2 100000 rfl (by decide) (by decide)
  have h1 := (C3_validity_predicates exStateNoToken 30000).1 (Or.inl (by decide))
  exact ⟨h2.1.trans (by decide), h2.2.trans (by decide), h1.1, h1.2⟩

/-- C4: both acquisition flows leave the store untouched on a failed
request, and on success replace all three credential fields together with
the response-derived values (the expiry being now + lifetime·1000, absent —
`NaN` — when `expiresIn` is missing); no mixed old/new state is possible. -/
theorem C4_credential_replacement_atomic :
    ∀ (s : ClientState) (now : Int) (r : Except ZilligonError TokenResponse),
      (∀ e : ZilligonError, r = .error e →
        authenticate s now r = (s, some e) ∧
        refreshAccessToken s now r = (s, some e)) ∧
      (∀ resp : TokenResponse, r = .ok resp →
        authenticate s now r = (applyTokenResponse s now resp, none) ∧
        refreshAccessToken s now r = (applyTokenResponse s now resp, none) ∧
        (applyTokenResponse s now resp).accessToken = resp.accessToken ∧
        (applyTokenResponse s now resp).refreshToken = resp.refreshToken ∧
        (applyTokenResponse s now resp).tokenExpiresAt =
          resp.expiresIn.map (fun e => now + e * 1000)) := by
  intro s now r
  refine ⟨fun e he => ?_, fun resp hr => ?_⟩
  · subst he; exact ⟨rfl, rfl⟩
  · subst hr; exact ⟨rfl, rfl, rfl, rfl, rfl⟩

/-- C4 witness: a response missing `expiresIn` still replaces all three
fields (the expiry becoming absent), and a failed request leaves the state
with old tokens exactly as it was. -/
theorem C4_credential_replacement_atomic_witness :
    authenticate exStateMargin 500
        (.ok { accessToken := some "newTok", refreshToken := some "newRef" }) =
      ({ config := exConfig, accessToken := some "newTok", refreshToken := some "newRef",
         tokenExpiresAt := none }, none) ∧
    refreshAccessToken exStateMargin 500 (.error eAuthDown) = (exStateMargin, some eAuthDown) := by
  have hok := ((C4_credential_replacement_atomic exStateMargin 500
    (.ok { accessToken := some "newTok", refreshToken := some "newRef" })).2 _ rfl).1
  have herr := ((C4_credential_replacement_atomic exStateMargin 500
    (.error eAuthDown)).1 eAuthDown rfl).2
  exact ⟨hok.trans (by decide), herr⟩

/-- C5: a `success: false` envelope with a server-supplied (nonempty) code
and message fails with exactly that code and message, whatever the HTTP
status; and a not-OK or unsuccessful response without a server-supplied
code fails with the generic `API_ERROR` carrying the HTTP status. -/
theorem C5_response_error_classification :
    ∀ (ok : Bool) (status : Nat) (env : Envelope Unit),
      (∀ (er : ApiErrorBody) (c m : String),
        env.success = false → env.error = some er →
        er.code = some c → c ≠ "" → er.message = some m → m ≠ "" →
        classifyResponse ok status env =
          .error { message := m, code := c, statusCode := some status,
                   details := er.details }) ∧
      ((ok = false ∨ env.success = false) → env.error.bind ApiErrorBody.code = none →
        ∃ e : ZilligonError, classifyResponse ok status env = .error e ∧
          e.code = "API_ERROR" ∧ e.statusCode = some status) := by
  intro ok status env
  constructor
  · intro er c m hs he hc hcne hm hmne
    simp [classifyResponse, hs, he, hc, hm, strOrD, hcne, hmne]
  · intro hguard hnone
    have hg : (!ok || !env.success) = true := by
      rcases hguard with h | h <;> simp [h]
    refine ⟨{ message := strOrD (env.error.bind ApiErrorBody.message)
                ("Request failed with status " ++ toString status)
              code := strOrD (env.error.bind ApiErrorBody.code) "API_ERROR"
              statusCode := some status
              details := env.error.bind ApiErrorBody.details }, ?_, ?_, rfl⟩
    · simp [classifyResponse, hg]
    · simp [hnone, strOrD]

/-- C5 witness: an HTTP-200 envelope with `success: false` and a server
error fails with the server's code and message; an HTTP-500 envelope with
no error object fails as `API_ERROR` with status 500. -/
theorem C5_response_error_classification_witness :
    classifyResponse (α := Unit) true 200
        { success := false,
          error := some { code := some "RATE_LIMITED", message := some "slow down" } } =
      .error { message := "slow down", code := "RATE_LIMITED", statusCode := some 200,
               details := none } ∧
    ∃ e : ZilligonError, classifyResponse (α := Unit) false 500 { success := true } = .error e ∧
      e.code = "API_ERROR" ∧ e.statusCode = some 500 := by
  refine ⟨?_, ?_⟩
  · exact (C5_response_error_classification true 200
      { success := false,
        error := some { code := some "RATE_LIMITED", message := some "slow down" } }).1
      { code := some "RATE_LIMITED", message := some "slow down" } "RATE_LIMITED" "slow down"
      rfl rfl rfl (by decide) rfl (by decide)
  · exact (C5_response_error_classification false 500 { success := true }).2
      (Or.inl rfl) rfl

/-- C6: a transport that never settles is aborted when the timeout fires
(after the configured delay, default 30000 ms) and the request fails with
code `TIMEOUT`; on every completion path the timeout timer is cleared. -/
theorem C6_timeout_abort_and_timer_cleanup :
    (∀ timeoutMs : Nat,
      (request (α := Unit) timeoutMs TransportBehavior.neverResolves).1 =
        .error { message := "Request timed out", code := "TIMEOUT" } ∧
      TimerEvent.abortFired timeoutMs ∈
        (request (α := Unit) timeoutMs TransportBehavior.neverResolves).2) ∧
    (∀ (tb : TransportBehavior Unit) (timeoutMs : Nat),
      TimerEvent.clearTimer ∈ (request timeoutMs tb).2) ∧
    DEFAULT_TIMEOUT = 30000 ∧
    (∀ cfg : ZilligonConfigInput, cfg.timeout = none →
      ∀ s : ClientState, mkZilligonClient cfg = .ok s → s.config.timeout = 30000) := by
  refine ⟨fun timeoutMs => ⟨rfl, by simp [request]⟩, fun tb timeoutMs => ?_, rfl, ?_⟩
  · cases tb with
    | resolves ok status env =>
      cases h : classifyResponse ok status env <;> simp [request, h]
    | badJson msg => simp [request]
    | rejects nm msg => simp [request]
    | neverResolves => simp [request]
  · intro cfg ht s hs
    by_cases hk : strTruthy cfg.apiKey
    · simp [mkZilligonClient, hk] at hs
      subst hs
      simp [natOrD, ht, DEFAULT_TIMEOUT]
    · simp only [Bool.not_eq_true] at hk
      simp [mkZilligonClient, hk] at hs

/-- C6 witness: with the timeout left unset, a constructed client carries
the 30000 ms default, and a never-resolving transport yields `TIMEOUT`. -/
theorem C6_timeout_abort_and_timer_cleanup_witness :
    (request (α := Unit) 30000 TransportBehavior.neverResolves).1 =
      .error { message := "Request timed out", code := "TIMEOUT" } ∧
    ∀ s : ClientState, mkZilligonClient { apiKey := some "zk_live_key" } = .ok s →
      s.config.timeout = 30000 := by
  exact ⟨(C6_timeout_abort_and_timer_cleanup.1 30000).1,
         fun s hs => C6_timeout_abort_and_timer_cleanup.2.2.2 _ rfl s hs⟩

/-- Unfolding lemma: past the ceiling the loop returns the timeout result,
having made `i` polls. -/
theorem gmwFrom_done (polls : Nat → Except ZilligonError MediaJobStatus)
    (modelOpt : Option String) (elapsed i : Nat) (hel : ¬ elapsed < maxWaitMs) :
    generateMediaAndWaitFrom polls modelOpt elapsed i =
      (.ok (timeoutResult modelOpt), i) := by
  rw [generateMediaAndWaitFrom, dif_neg hel]

/-- Unfolding lemma: a failed status-poll request propagates its error. -/
theorem gmwFrom_pollError (polls : Nat → Except ZilligonError MediaJobStatus)
    (modelOpt : Option String) (elapsed i : Nat) (e : ZilligonError)
    (hel : elapsed < maxWaitMs) (h : polls i = .error e) :
    generateMediaAndWaitFrom polls modelOpt elapsed i = (.error e, i + 1) := by
  rw [generateMediaAndWaitFrom, dif_pos hel, h]

/-- Unfolding lemma: a `completed` status with a result returns it. -/
theorem gmwFrom_completed (polls : Nat → Except ZilligonError MediaJobStatus)
    (modelOpt : Option String) (elapsed i : Nat) (st : MediaJobStatus) (r : MediaResult)
    (hel : elapsed < maxWaitMs) (h : polls i = .ok st)
    (hres : st.result = some r) (hcomp : st.status = "completed") :
    generateMediaAndWaitFrom polls modelOpt elapsed i = (.ok r, i + 1) := by
  rw [generateMediaAndWaitFrom, dif_pos hel, h]
  obtain ⟨status, result, progress⟩ := st
  dsimp only at hres hcomp ⊢
  subst hres hcomp
  simp

/-- Unfolding lemma: a `failed` status returns the synthesized failure. -/
theorem gmwFrom_failed (polls : Nat → Except ZilligonError MediaJobStatus)
    (modelOpt : Option String) (elapsed i : Nat) (st : MediaJobStatus)
    (hel : elapsed < maxWaitMs) (h : polls i = .ok st) (hfail : st.status = "failed") :
    generateMediaAndWaitFrom polls modelOpt elapsed i =
      (.ok (failedResult modelOpt), i + 1) := by
  rw [generateMediaAndWaitFrom, dif_pos hel, h]
  obtain ⟨status, result, progress⟩ := st
  dsimp only at hfail ⊢
  subst hfail
  cases result <;> simp

/-- Unfolding lemma: a non-terminal status (not `failed`, and `completed`
only without a result) continues the loop one interval later. -/
theorem gmwFrom_continue (polls : Nat → Except ZilligonError MediaJobStatus)
    (modelOpt : Option String) (elapsed i : Nat) (st : MediaJobStatus)
    (hel : elapsed < maxWaitMs) (h : polls i = .ok st)
    (hfail : st.status ≠ "failed") (hcomp : st.status = "completed" → st.result = none) :
    generateMediaAndWaitFrom polls modelOpt elapsed i =
      generateMediaAndWaitFrom polls modelOpt (elapsed + pollIntervalMs) (i + 1) := by
  rw [generateMediaAndWaitFrom, dif_pos hel, h]
  obtain ⟨status, result, progress⟩ := st
  dsimp only at hfail hcomp ⊢
  cases hres : result with
  | some r =>
    dsimp only
    rw [if_neg (fun hc => Option.noConfusion ((hres ▸ hcomp hc) : some r = none)),
      if_neg hfail]
  | none =>
    dsimp only
    rw [if_neg hfail]

/-- Helper: when every status-poll request succeeds, the polling loop never
propagates an error — every outcome is an `.ok` result. -/
theorem generateMediaAndWaitFrom_isOk (polls : Nat → Except ZilligonError MediaJobStatus)
    (modelOpt : Option String) (hp : ∀ i, ∃ st, polls i = .ok st) :
    ∀ (n elapsed i : Nat), maxWaitMs - elapsed ≤ n →
      ∃ r, (generateMediaAndWaitFrom polls modelOpt elapsed i).1 = .ok r := by
  intro n
  induction n with
  | zero =>
    intro elapsed i hle
    rw [gmwFrom_done polls modelOpt elapsed i (by omega)]
    exact ⟨_, rfl⟩
  | succ n ih =>
    intro elapsed i hle
    by_cases hel : elapsed < maxWaitMs
    · have hrec : maxWaitMs - (elapsed + pollIntervalMs) ≤ n := by
        have hpi : 0 < pollIntervalMs := by decide
        omega
      obtain ⟨st, hst⟩ := hp i
      by_cases h2 : st.status = "failed"
      · rw [gmwFrom_failed polls modelOpt elapsed i st hel hst h2]
        exact ⟨_, rfl⟩
      · by_cases h1 : st.status = "completed"
        · cases hres : st.result with
          | some r =>
            rw [gmwFrom_completed polls modelOpt elapsed i st r hel hst hres h1]
            exact ⟨r, rfl⟩
          | none =>
            rw [gmwFrom_continue polls modelOpt elapsed i st hel hst h2 (fun _ => hres)]
            exact ih _ _ hrec
        · rw [gmwFrom_continue polls modelOpt elapsed i st hel hst h2 (fun hc => absurd hc h1)]
          exact ih _ _ hrec
    · rw [gmwFrom_done polls modelOpt elapsed i hel]
      exact ⟨_, rfl⟩

/-- Helper: when every poll in the window is non-terminal (not `failed`,
and `completed` only without a result payload), the loop runs the full
ceiling and returns the synthesized timeout result after exactly
`maxWaitMs / pollIntervalMs` polls. -/
theorem generateMediaAndWaitFrom_timeout (polls : Nat → Except ZilligonError MediaJobStatus)
    (modelOpt : Option String)
    (hp : ∀ j, j < maxWaitMs / pollIntervalMs →
      ∃ st, polls j = .ok st ∧ st.status ≠ "failed" ∧
        (st.status = "completed" → st.result = none)) :
    ∀ (k i : Nat), i + k = maxWaitMs / pollIntervalMs →
      generateMediaAndWaitFrom polls modelOpt (pollIntervalMs * i) i =
        (.ok (timeoutResult modelOpt), maxWaitMs / pollIntervalMs) := by
  intro k
  induction k with
  | zero =>
    intro i hik
    rw [Nat.add_zero] at hik
    subst hik
    exact gmwFrom_done polls modelOpt _ _ (by decide)
  | succ k ih =>
    intro i hik
    have hi : i < maxWaitMs / pollIntervalMs := by omega
    have hel : pollIntervalMs * i < maxWaitMs := by
      have h150 : maxWaitMs / pollIntervalMs = 150 := by decide
      simp only [pollIntervalMs, maxWaitMs] at *
      omega
    obtain ⟨st, hst, hfail, hcomp⟩ := hp i hi
    have hstep : pollIntervalMs * i + pollIntervalMs = pollIntervalMs * (i + 1) := by ring
    rw [gmwFrom_continue polls modelOpt _ i st hel hst hfail hcomp, hstep]
    exact ih (i + 1) (by omega)

/-- C1 counterexample: the claim says every failure of the job-submit
request is encoded in the returned result, but a failed submit propagates
out of `generateMediaAndWait` as a raised error (client.js lines 455-466
have no try/catch), not as a result value. -/
theorem C1_counterexample_submit_failure_raises :
    generateMediaAndWait (.error eNetDown) (fun _ => .ok processingStatus) (some "kling") =
      (.error eNetDown, 0) := by
  rfl

/-- C1 (amended): when the submit request and every status-poll request
succeed, the poller never raises — terminal failure and timeout are encoded
in the returned result; a failure of the submit request itself propagates
as a raised error. -/
theorem C1_poller_failures_encoded_when_requests_succeed :
    (∀ (job : MediaJob) (polls : Nat → Except ZilligonError MediaJobStatus)
       (modelOpt : Option String),
      (∀ i : Nat, ∃ st, polls i = .ok st) →
      ∃ r : MediaResult, (generateMediaAndWait (.ok job) polls modelOpt).1 = .ok r) ∧
    (∀ (e : ZilligonError) (polls : Nat → Except ZilligonError MediaJobStatus)
       (modelOpt : Option String),
      generateMediaAndWait (.error e) polls modelOpt = (.error e, 0)) := by
  refine ⟨fun job polls modelOpt hp => ?_, fun e polls modelOpt => rfl⟩
  exact generateMediaAndWaitFrom_isOk polls modelOpt hp maxWaitMs 0 0 (by omega)

/-- C1 witness: with a successful submit and all-successful (non-terminal)
polls the outcome is an `.ok` result. -/
theorem C1_poller_failures_encoded_witness :
    ∃ r : MediaResult,
      (generateMediaAndWait (.ok exJob) (fun _ => .ok processingStatus) (some "kling")).1 =
        .ok r := by
  exact C1_poller_failures_encoded_when_requests_succeed.1 exJob _ (some "kling")
    (fun i => ⟨processingStatus, rfl⟩)

/-- C7: the poller's interval is 2000 ms and ceiling 300000 ms; a first poll
of `completed` with a result returns that result after exactly one poll; a
first poll of `failed` returns the synthesized
`success: false / "Media generation failed"` result without raising; and a
window of non-terminal polls ends with the synthesized timeout result after
exactly ceiling/interval = 150 polls. -/
theorem C7_poller_cadence_and_terminal_results :
    pollIntervalMs = 2000 ∧ maxWaitMs = 300000 ∧
    (∀ (job : MediaJob) (polls : Nat → Except ZilligonError MediaJobStatus)
       (modelOpt : Option String) (r : MediaResult) (p : Option Nat),
      polls 0 = .ok { status := "completed", result := some r, progress := p } →
      generateMediaAndWait (.ok job) polls modelOpt = (.ok r, 1)) ∧
    (∀ (job : MediaJob) (polls : Nat → Except ZilligonError MediaJobStatus)
       (modelOpt : Option String) (res : Option MediaResult) (p : Option Nat),
      polls 0 = .ok { status := "failed", result := res, progress := p } →
      generateMediaAndWait (.ok job) polls modelOpt = (.ok (failedResult modelOpt), 1) ∧
      (failedResult modelOpt).success = false ∧
      (failedResult modelOpt).error = some "Media generation failed") ∧
    (∀ (job : MediaJob) (polls : Nat → Except ZilligonError MediaJobStatus)
       (modelOpt : Option String),
      (∀ j, j < maxWaitMs / pollIntervalMs →
        ∃ st, polls j = .ok st ∧ st.status ≠ "failed" ∧
          (st.status = "completed" → st.result = none)) →
      generateMediaAndWait (.ok job) polls modelOpt =
        (.ok (timeoutResult modelOpt), maxWaitMs / pollIntervalMs) ∧
      (timeoutResult modelOpt).success = false ∧
      (timeoutResult modelOpt).error = some "Media generation timed out" ∧
      maxWaitMs / pollIntervalMs = 150) := by
  refine ⟨rfl, rfl, fun job polls modelOpt r p h0 => ?_,
    fun job polls modelOpt res p h0 => ?_, fun job polls modelOpt hp => ?_⟩
  · exact gmwFrom_completed polls modelOpt 0 0 _ r (by decide) h0 rfl rfl
  · exact ⟨gmwFrom_failed polls modelOpt 0 0 _ (by decide) h0 rfl, rfl, rfl⟩
  · refine ⟨?_, rfl, rfl, by decide⟩
    show generateMediaAndWaitFrom polls modelOpt 0 0 =
      (.ok (timeoutResult modelOpt), maxWaitMs / pollIntervalMs)
    have h := generateMediaAndWaitFrom_timeout polls modelOpt hp
      (maxWaitMs / pollIntervalMs) 0 (by omega)
    rw [Nat.mul_zero] at h
    exact h

/-- C7 witness: a first poll of `failed` yields the synthesized failure
result after one poll. -/
theorem C7_poller_cadence_witness :
    generateMediaAndWait (.ok exJob)
        (fun _ => .ok { status := "failed", result := none, progress := some 10 })
        (some "kling") =
      (.ok (failedResult (some "kling")), 1) := by
  exact (C7_poller_cadence_and_terminal_results.2.2.2.1 exJob _ (some "kling")
    none (some 10) rfl).1

/-- C10: a `completed` status without a result payload is not terminal: the
loop neither returns nor raises there but keeps polling (client.js line 475
requires `status.result` as well), and when every poll in the window is
`completed` without a payload the call ends with the synthesized timeout
result instead of the completed job's absent result. -/
theorem C10_completed_without_result_keeps_polling :
    (∀ (polls : Nat → Except ZilligonError MediaJobStatus) (modelOpt : Option String)
       (elapsed i : Nat) (st : MediaJobStatus),
      elapsed < maxWaitMs → polls i = .ok st →
      st.status = "completed" → st.result = none →
      generateMediaAndWaitFrom polls modelOpt elapsed i =
        generateMediaAndWaitFrom polls modelOpt (elapsed + pollIntervalMs) (i + 1)) ∧
    (∀ (job : MediaJob) (polls : Nat → Except ZilligonError MediaJobStatus)
       (modelOpt : Option String) (p : Nat → Option Nat),
      (∀ j, polls j = .ok { status := "completed", result := none, progress := p j }) →
      generateMediaAndWait (.ok job) polls modelOpt =
        (.ok (timeoutResult modelOpt), maxWaitMs / pollIntervalMs)) := by
  constructor
  · intro polls modelOpt elapsed i st hel hst hcomp hres
    exact gmwFrom_continue polls modelOpt elapsed i st hel hst
      (fun hf => by rw [hcomp] at hf; exact absurd hf (by decide)) (fun _ => hres)
  · intro job polls modelOpt p hp
    show generateMediaAndWaitFrom polls modelOpt 0 0 =
      (.ok (timeoutResult modelOpt), maxWaitMs / pollIntervalMs)
    have h := generateMediaAndWaitFrom_timeout polls modelOpt
      (fun j _ => ⟨{ status := "completed", result := none, progress := p j },
        hp j, (by show ("completed" : String) ≠ "failed"; decide), fun _ => rfl⟩)
      (maxWaitMs / pollIntervalMs) 0 (by omega)
    rw [Nat.mul_zero] at h
    exact h

/-- C10 witness: with every poll `completed` but payload-free, the call
returns the timeout result after the full 150 polls. -/
theorem C10_completed_without_result_witness :
    generateMediaAndWait (.ok exJob) (fun _ => .ok completedNoResultStatus) (some "flux") =
      (.ok (timeoutResult (some "flux")), 150) := by
  have h := C10_completed_without_result_keeps_polling.2 exJob
    (fun _ => .ok completedNoResultStatus) (some "flux") (fun _ => some 100)
    (fun j => rfl)
  rw [h, show maxWaitMs / pollIntervalMs = 150 from by decide]

/-- Helper: the network calls made by one `ensureValidToken` execution are
one of four traces — none, refresh only, authenticate only, or refresh then
authenticate. -/
theorem ensureValidToken_calls (s : ClientState) (now : Int)
    (ro ao : Except ZilligonError TokenResponse) :
    (ensureValidToken s now ro ao).2.2 = [] ∨
    (ensureValidToken s now ro ao).2.2 = [NetCall.refresh] ∨
    (ensureValidToken s now ro ao).2.2 = [NetCall.auth] ∨
    (ensureValidToken s now ro ao).2.2 = [NetCall.refresh, NetCall.auth] := by
  by_cases hv : tokenIsValid s now
  · simp [ensureValidToken, hv]
  · simp only [Bool.not_eq_true] at hv
    by_cases hr : strTruthy s.refreshToken
    · cases ro with
      | ok resp =>
        by_cases ht : strTruthy (applyTokenResponse s now resp).accessToken
        · simp [ensureValidToken, hv, hr, ht]
        · cases ao <;> simp [ensureValidToken, ensureAuthStep, hv, hr, ht]
      | error e =>
        cases ao <;> simp [ensureValidToken, ensureAuthStep, hv, hr]
    · simp only [Bool.not_eq_true] at hr
      cases ao <;> simp [ensureValidToken, ensureAuthStep, hv, hr]

/-- C2: with a token satisfying the 60-second margin the stored token is
returned with no network call; every execution makes at most one refresh
and at most one authenticate exchange, and an invalid token with a refresh
token present makes exactly one refresh exchange; and when that refresh
exchange fails, the failure is swallowed, the authenticate exchange still
runs (trace: refresh then authenticate), and an authenticate failure is
what propagates to the caller. -/
theorem C2_ensureValidToken_single_fallback :
    ∀ (s : ClientState) (now : Int) (ro ao : Except ZilligonError TokenResponse),
      (tokenIsValid s now = true →
        ensureValidToken s now ro ao = (s, .ok s.accessToken, [])) ∧
      ((ensureValidToken s now ro ao).2.2.count NetCall.refresh ≤ 1 ∧
       (ensureValidToken s now ro ao).2.2.count NetCall.auth ≤ 1 ∧
       (tokenIsValid s now = false → strTruthy s.refreshToken = true →
         (ensureValidToken s now ro ao).2.2.count NetCall.refresh = 1)) ∧
      (∀ eR : ZilligonError, tokenIsValid s now = false → strTruthy s.refreshToken = true →
        ro = .error eR →
        (ensureValidToken s now ro ao).2.2 = [NetCall.refresh, NetCall.auth] ∧
        ∀ eA : ZilligonError, ao = .error eA →
          (ensureValidToken s now ro ao).2.1 = .error eA) := by
  intro s now ro ao
  refine ⟨fun hv => by simp [ensureValidToken, hv], ⟨?_, ?_, ?_⟩, ?_⟩
  · rcases ensureValidToken_calls s now ro ao with h | h | h | h <;> rw [h] <;> decide
  · rcases ensureValidToken_calls s now ro ao with h | h | h | h <;> rw [h] <;> decide
  · intro hv hr
    cases ro with
    | ok resp =>
      by_cases ht : strTruthy (applyTokenResponse s now resp).accessToken
      · rw [show (ensureValidToken s now (.ok resp) ao).2.2 = [NetCall.refresh] from by
          simp [ensureValidToken, hv, hr, ht]]
        decide
      · cases ao with
        | ok resp2 =>
          rw [show (ensureValidToken s now (.ok resp) (.ok resp2)).2.2 =
              [NetCall.refresh, NetCall.auth] from by
            simp [ensureValidToken, ensureAuthStep, hv, hr, ht]]
          decide
        | error e2 =>
          rw [show (ensureValidToken s now (.ok resp) (.error e2)).2.2 =
              [NetCall.refresh, NetCall.auth] from by
            simp [ensureValidToken, ensureAuthStep, hv, hr, ht]]
          decide
    | error e =>
      cases ao with
      | ok resp2 =>
        rw [show (ensureValidToken s now (.error e) (.ok resp2)).2.2 =
            [NetCall.refresh, NetCall.auth] from by
          simp [ensureValidToken, ensureAuthStep, hv, hr]]
        decide
      | error e2 =>
        rw [show (ensureValidToken s now (.error e) (.error e2)).2.2 =
            [NetCall.refresh, NetCall.auth] from by
          simp [ensureValidToken, ensureAuthStep, hv, hr]]
        decide
  · intro eR hv hr hro
    subst hro
    constructor
    · cases ao <;> simp [ensureValidToken, ensureAuthStep, hv, hr]
    · intro eA hao
      subst hao
      simp [ensureValidToken, ensureAuthStep, hv, hr]

/-- C2 witness: a state with an expired token and a refresh token, where
both exchanges fail: the trace is refresh then authenticate and the error
propagated is the authenticate failure, not the refresh failure. -/
theorem C2_ensureValidToken_single_fallback_witness :
    ensureValidToken exStateMargin 70000 (.error eRefreshDown) (.error eAuthDown) =
      (exStateMargin, .error eAuthDown, [NetCall.refresh, NetCall.auth]) ∧
    ensureValidToken exStateMargin 30000 (.error eRefreshDown) (.error eAuthDown) =
      (exStateMargin, .ok (some "tok"), []) := by
  have h := C2_ensureValidToken_single_fallback exStateMargin 70000
    (.error eRefreshDown) (.error eAuthDown)
  have h3 := h.2.2 eRefreshDown (by decide) (by decide) rfl
  have hv := (C2_ensureValidToken_single_fallback exStateMargin 30000
    (.error eRefreshDown) (.error eAuthDown)).1 (by decide)
  refine ⟨?_, hv.trans rfl⟩
  have hfst : (ensureValidToken exStateMargin 70000
      (.error eRefreshDown) (.error eAuthDown)).1 = exStateMargin := by decide
  have := h3.2 eAuthDown rfl
  calc ensureValidToken exStateMargin 70000 (.error eRefreshDown) (.error eAuthDown)
      = ((ensureValidToken exStateMargin 70000 (.error eRefreshDown) (.error eAuthDown)).1,
         (ensureValidToken exStateMargin 70000 (.error eRefreshDown) (.error eAuthDown)).2.1,
         (ensureValidToken exStateMargin 70000 (.error eRefreshDown) (.error eAuthDown)).2.2) := rfl
    _ = (exStateMargin, .error eAuthDown, [NetCall.refresh, NetCall.auth]) := by
        rw [hfst, this, h3.1]

end Zilligon
